import Mathlib

/-!
Verification of the filter/entity-resolution and match-deduplication engine of
the TennisBot repository (src/Chatbot/actions/actions.py, src/Chatbot/db_create.py).

The Python source is shallowly embedded: SQLite rows become a record type
(`MatchRow`) for the named-field (dict) access path and lists of `PyVal` for the
positional (raw tuple) access path; Python truthiness (`x or ""`) and the
`str(...)` coercions used by the code are modelled explicitly.  Each definition
cites the source lines it embeds.
-/

namespace TennisBot

/-- A Python value as it appears in an SQLite result cell: NULL, an integer or
a string.  (Floats never reach the code paths verified here.) -/
inductive PyVal where
  | none
  | intV (n : Int)
  | strV (s : String)
deriving DecidableEq

/-! ### String primitives

Computable (kernel-reducing) counterparts of the string operations the Python
code uses.  Lowering is ASCII-only, which agrees with the SQLite `LOWER` and
with Python `str.lower` on every string these code paths compare (keyword
tables, connector words and database codes are all ASCII). -/

/-- drop elements satisfying `p` from the end of a list. -/
def dropTrailing {α : Type} (p : α → Bool) (l : List α) : List α :=
  (l.reverse.dropWhile p).reverse

/-- ASCII lower-casing of one character. -/
def lowerChar (c : Char) : Char :=
  if 65 ≤ c.toNat ∧ c.toNat ≤ 90 then Char.ofNat (c.toNat + 32) else c

/-- ASCII `str.lower` / SQLite `LOWER`. -/
def strLower (s : String) : String := String.mk (s.toList.map lowerChar)

/-- Python `str.strip()`: drop whitespace from both ends. -/
def strTrim (s : String) : String :=
  String.mk (dropTrailing Char.isWhitespace (s.toList.dropWhile Char.isWhitespace))

/-- split a character list at separator characters (empty pieces included,
as with Python `str.split(sep)`). -/
def splitChars (p : Char → Bool) : List Char → List Char → List String
  | acc, [] => [String.mk acc.reverse]
  | acc, c :: rest =>
    if p c then String.mk acc.reverse :: splitChars p [] rest
    else splitChars p (c :: acc) rest

/-- Python `" ".join(l)`. -/
def joinSpace (l : List String) : String :=
  String.mk (((l.map String.toList).intersperse [' ']).flatten)

/-- Python `str(v or "")` for a cell value: falsy values (`None`, `0`, `""`)
give `""`, otherwise the string form of the value.  Used by
`make_match_signature` (actions.py lines 420-422, 428-430, 434, 438). -/
def pyOrEmptyStr : PyVal → String
  | PyVal.none => ""
  | PyVal.intV n => if n = 0 then "" else toString n
  | PyVal.strV s => s

/-- Python `(v or "").strip().lower()` for a schema-typed (TEXT or NULL) cell:
`None` degrades to `""`, a string is trimmed and lower-cased
(actions.py lines 425-426). -/
def pyStripLower : PyVal → String
  | PyVal.strV s => strLower (strTrim s)
  | _ => ""

/-- Python `(v or "").strip()` for a schema-typed (TEXT or NULL) cell
(actions.py line 430). -/
def pyStrip : PyVal → String
  | PyVal.strV s => strTrim s
  | _ => ""

/-- Python `str(x or "")` where `x : Option String` (dict access path). -/
def strOrEmptyS (x : Option String) : String := x.getD ""

/-- Python `str(x or "")` where `x : Option Int` (dict access path); note that
`0 or ""` is `""` because `0` is falsy. -/
def strOrEmptyI : Option Int → String
  | Option.none => ""
  | Option.some n => if n = 0 then "" else toString n

/-- Python `str(x)` where `x : Option String`: `None` prints as `"None"`
(used without an `or ""` guard at actions.py line 1178). -/
def pyStrOpt : Option String → String
  | Option.none => "None"
  | Option.some s => s

/-- A row of the `matches` table, with the exact column set and column order of
`db_create.py` lines 63-102 (TEXT columns as `Option String`, INTEGER columns
as `Option Int`). -/
structure MatchRow where
  match_id : Option Int
  tourney_name : Option String
  surface : Option String
  draw_size : Option Int
  tourney_level : Option String
  tourney_date : Option String
  match_num : Option Int
  winner_id : Option String
  loser_id : Option String
  winner_seed : Option String
  loser_seed : Option String
  score : Option String
  best_of : Option Int
  round : Option String
  minutes : Option Int
  w_ace : Option Int
  w_df : Option Int
  w_svpt : Option Int
  w_1stIn : Option Int
  w_1stWon : Option Int
  w_2ndWon : Option Int
  w_SvGms : Option Int
  w_bpSaved : Option Int
  w_bpFaced : Option Int
  l_ace : Option Int
  l_df : Option Int
  l_svpt : Option Int
  l_1stIn : Option Int
  l_1stWon : Option Int
  l_2ndWon : Option Int
  l_SvGms : Option Int
  l_bpSaved : Option Int
  l_bpFaced : Option Int
  ongoing : Option Int
deriving DecidableEq

/-- TEXT cell to a Python value. -/
def vStr : Option String → PyVal
  | Option.none => PyVal.none
  | Option.some s => PyVal.strV s

/-- INTEGER cell to a Python value. -/
def vInt : Option Int → PyVal
  | Option.none => PyVal.none
  | Option.some n => PyVal.intV n

/-- The positional raw tuple of a match row, in the column order of the
`matches` table (`db_create.py` lines 63-102): this is what
`cursor.fetchall()` yields for `SELECT * FROM matches`. -/
def MatchRow.toRaw (r : MatchRow) : List PyVal :=
  [vInt r.match_id, vStr r.tourney_name, vStr r.surface, vInt r.draw_size,
   vStr r.tourney_level, vStr r.tourney_date, vInt r.match_num,
   vStr r.winner_id, vStr r.loser_id, vStr r.winner_seed, vStr r.loser_seed,
   vStr r.score, vInt r.best_of, vStr r.round, vInt r.minutes,
   vInt r.w_ace, vInt r.w_df, vInt r.w_svpt, vInt r.w_1stIn, vInt r.w_1stWon,
   vInt r.w_2ndWon, vInt r.w_SvGms, vInt r.w_bpSaved, vInt r.w_bpFaced,
   vInt r.l_ace, vInt r.l_df, vInt r.l_svpt, vInt r.l_1stIn, vInt r.l_1stWon,
   vInt r.l_2ndWon, vInt r.l_SvGms, vInt r.l_bpSaved, vInt r.l_bpFaced,
   vInt r.ongoing]

/-- lexicographic `<=` on code-point lists (Python string comparison). -/
def charListLe : List Char → List Char → Bool
  | [], _ => true
  | _ :: _, [] => false
  | a :: as, b :: bs =>
    if a.toNat = b.toNat then charListLe as bs
    else decide (a.toNat < b.toNat)

/-- Python `a <= b` on strings, by code point. -/
def strLe (a b : String) : Bool := charListLe a.toList b.toList

/-- Python `tuple(sorted((a, b)))` for two strings (actions.py line 432). -/
def sortPair (a b : String) : String × String :=
  if strLe a b then (a, b) else (b, a)

/-- The hashable signature tuple returned by `make_match_signature`
(actions.py lines 433-440). -/
structure Signature where
  date : String
  tourney : String
  round : String
  participants : String × String
  matchNum : String
  score : String
deriving DecidableEq

/-- `make_match_signature` on the dict branch (actions.py lines 415-422 and
433-440): field extraction by column name. -/
def make_match_signature (row : MatchRow) : Signature :=
  { date := strOrEmptyS row.tourney_date
    tourney := strLower (strTrim (row.tourney_name.getD ""))
    round := strLower (strTrim (row.round.getD ""))
    participants := sortPair (strOrEmptyS row.winner_id) (strOrEmptyS row.loser_id)
    matchNum := strOrEmptyI row.match_num
    score := strTrim (row.score.getD "") }

/-- `make_match_signature` on the tuple branch (actions.py lines 423-440):
field extraction by fixed offset, each guarded by `len(row) > k`. -/
def make_match_signature_raw (row : List PyVal) : Signature :=
  let tourney_date := if row.length > 5 then row.getD 5 PyVal.none else PyVal.none
  let tourney_name := if row.length > 1 then pyStripLower (row.getD 1 PyVal.none) else ""
  let round_name := if row.length > 13 then pyStripLower (row.getD 13 PyVal.none) else ""
  let match_num := if row.length > 6 then row.getD 6 PyVal.none else PyVal.none
  let winner_id := if row.length > 7 then pyOrEmptyStr (row.getD 7 PyVal.none) else ""
  let loser_id := if row.length > 8 then pyOrEmptyStr (row.getD 8 PyVal.none) else ""
  let score := if row.length > 11 then pyStrip (row.getD 11 PyVal.none) else ""
  { date := pyOrEmptyStr tourney_date
    tourney := tourney_name
    round := round_name
    participants := sortPair winner_id loser_id
    matchNum := pyOrEmptyStr match_num
    score := score }

/-- The seen-set loop shared by the three dedup sites of the source
(`deduplicate_matches` lines 443-452, `fetch_unique_match_dicts` lines
455-472, the inline loop of `ActionHeadToHead.run` lines 1474-1481): keep a
row iff its key has not been seen, extending the seen set. -/
def dedupByKey {α : Type} (key : α → Signature) : List Signature → List α → List α
  | _, [] => []
  | seen, r :: rest =>
    if key r ∈ seen then dedupByKey key seen rest
    else r :: dedupByKey key (key r :: seen) rest

/-- `deduplicate_matches` (actions.py lines 443-452). -/
def deduplicate_matches (rows : List MatchRow) : List MatchRow :=
  dedupByKey make_match_signature [] rows

/-- `fetch_unique_match_dicts` (actions.py lines 455-472): dict rows carrying
their raw tuple, deduplicated by the signature of the raw tuple. -/
def fetch_unique_match_rows (rows : List MatchRow) : List MatchRow :=
  dedupByKey (fun r => make_match_signature_raw r.toRaw) [] rows

/-- In `ActionPlayerStats.run` the fetched match rows are passed through
`deduplicate_matches` before aggregation (actions.py lines 1155-1157). -/
def ActionPlayerStats_match_rows (rows : List MatchRow) : List MatchRow :=
  deduplicate_matches rows

/-- In `ActionHeadToHead.run` the fetched raw rows are deduplicated by an
inline seen-signature loop (actions.py lines 1474-1481). -/
def ActionHeadToHead_match_rows (rows : List (List PyVal)) : List (List PyVal) :=
  dedupByKey make_match_signature_raw [] rows

/-- In `ActionMatchResult._handle_single` the rows used for presentation are
exactly the rows returned by `cursor.fetchall()` — no deduplication is applied
between the fetch (actions.py lines 2160-2161) and the presentation loop
(line 2185). -/
def ActionMatchResult_handle_single_rows (rows : List (List PyVal)) : List (List PyVal) :=
  rows

/-- In `ActionMatchResult._handle_tournament` the rows used for presentation
are exactly the rows returned by `cursor.fetchall()` (actions.py lines
2259-2260, presented at line 2284). -/
def ActionMatchResult_handle_tournament_rows (rows : List (List PyVal)) : List (List PyVal) :=
  rows

/-- In `ActionMatchResult._handle_latest` the rows used for presentation are
exactly the rows returned by `cursor.fetchall()` (actions.py lines 2325-2326,
presented at line 2348). -/
def ActionMatchResult_handle_latest_rows (rows : List (List PyVal)) : List (List PyVal) :=
  rows

/-! ## Heuristic text extractor (actions.py lines 1716-1879, 2105-2119) -/

/-- decidable range check on naturals, used for character classes. -/
def inRange (lo hi n : Nat) : Bool := decide (lo ≤ n ∧ n ≤ hi)

/-- ASCII apostrophe. -/
def apoChar : Char := Char.ofNat 39

/-- Right single quotation mark (U+2019), stripped alongside the apostrophe. -/
def rsqChar : Char := Char.ofNat 0x2019

/-- Newline. -/
def nlChar : Char := Char.ofNat 10

/-- The character class kept by the regex
`[^A-Za-zÀ-ÖØ-öø-ÿ' -]` of `_tokenize` (actions.py line 1797): ASCII letters,
the accented-Latin ranges, apostrophe, space, hyphen. -/
def keepChar (c : Char) : Bool :=
  let n := c.toNat
  inRange 65 90 n || inRange 97 122 n || inRange 192 214 n ||
    inRange 216 246 n || inRange 248 255 n || n == 39 || n == 32 || n == 45

/-- `re.sub(r"[^A-Za-zÀ-ÖØ-öø-ÿ' -]", " ", text)` (actions.py line 1797). -/
def cleanText (text : String) : String :=
  String.mk (text.toList.map (fun c => if keepChar c then c else ' '))

/-- Python `cleaned.split()`: split on whitespace runs, dropping empty pieces
(actions.py line 1798). -/
def splitTokens (s : String) : List String :=
  (splitChars Char.isWhitespace [] s.toList).filter (fun t => t != "")

/-- `_PREFIX_FILLERS` (actions.py lines 1720-1750). -/
def PREFIX_FILLERS : List String :=
  ["il", "lo", "la", "l", "l" ++ String.singleton apoChar, "i", "gli", "le",
   "un", "una", "uno", "dei", "degli", "delle", "del", "dello", "della",
   "di", "d", "risultato", "risultati", "punteggio", "match", "partita",
   "partite", "ultimi", "ultime", "ultimo", "ultima"]

/-- `_SUFFIX_FILLERS` (actions.py line 1752). -/
def SUFFIX_FILLERS : List String := ["match", "partita", "partite", "vs", "contro"]

/-- `_BREAK_TOKENS` (actions.py lines 1754-1789). -/
def BREAK_TOKENS : List String :=
  ["a", "ad", "al", "allo", "alla", "agli", "alle", "ai", "nel", "nello",
   "nella", "nei", "nelle", "su", "sul", "sullo", "sulla", "sui", "sugli",
   "per", "tra", "fra", "contro", "vs", "vs.", "versus", "durante", "da",
   "dal", "dallo", "dalla", "dai", "dagli", "dalle"]

/-- The connector words skipped by `_tokenize` (actions.py line 1802).
(Note: `.toLower` models Python `str.lower`; it agrees on ASCII, which is all
these membership tests compare against.) -/
def isConnectorTok (t : String) : Bool :=
  ["vs", "vs.", "versus", "contro"].contains (strLower t)

/-- Python `tok.isdigit()`: nonempty and all digits (actions.py line 1804). -/
def pyIsDigit (t : String) : Bool :=
  !(t == "") && t.toList.all Char.isDigit

/-- membership of a lowered token in `_PREFIX_FILLERS` (actions.py line 1806). -/
def isPrefixFillerTok (t : String) : Bool := PREFIX_FILLERS.contains (strLower t)

/-- The token loop of `_tokenize` (actions.py lines 1799-1808): `started`
models `result` being non-empty — a filler token is dropped exactly while no
token has been appended yet. -/
def tokLoopGo (started : Bool) : List String → List String
  | [] => []
  | t :: rest =>
    if isConnectorTok t then tokLoopGo started rest
    else if pyIsDigit t then tokLoopGo started rest
    else if !started && isPrefixFillerTok t then tokLoopGo started rest
    else t :: tokLoopGo true rest

/-- `ActionMatchResult._tokenize` (actions.py lines 1794-1809). -/
def ActionMatchResult_tokenize (text : String) : List String :=
  tokLoopGo false (splitTokens (cleanText text))

/-- Python `s.strip(chars)`: remove any of the given characters from both
ends. -/
def stripCharsBoth (set : List Char) (s : String) : String :=
  String.mk (dropTrailing (fun c => set.contains c) (s.toList.dropWhile (fun c => set.contains c)))

/-- Python strip of the apostrophe and of the right single quotation mark
from both ends, as applied to lowered tokens (actions.py lines 1818, 1820). -/
def stripApos (s : String) : String := stripCharsBoth [rsqChar, apoChar] s

/-- The bounded collector of `_clean_player_fragment` (actions.py lines
1826-1835 and 1838-1845): walk tokens, stop at a break token or digit token,
keep at most 3. -/
def collectGo (n : Nat) : List String → List String
  | [] => []
  | t :: rest =>
    if BREAK_TOKENS.contains (strLower t) || pyIsDigit t then []
    else if n + 1 ≥ 3 then [t]
    else t :: collectGo (n + 1) rest

/-- `ActionMatchResult._clean_player_fragment` (actions.py lines 1811-1848). -/
def ActionMatchResult_clean_player_fragment (fragment : String) (from_end : Bool) : String :=
  let tokens := ActionMatchResult_tokenize fragment
  if tokens.isEmpty then "" else
  let tokens2 := tokens.dropWhile (fun t => PREFIX_FILLERS.contains (stripApos (strLower t)))
  let tokens3 := dropTrailing (fun t => SUFFIX_FILLERS.contains (stripApos (strLower t))) tokens2
  if tokens3.isEmpty then "" else
  if from_end then
    let collected := collectGo 0 tokens3.reverse
    let collected2 := if collected.isEmpty then [tokens3.getLastD ""] else collected
    joinSpace collected2.reverse
  else
    let collected := collectGo 0 tokens3
    let collected2 := if collected.isEmpty then [tokens3.headD ""] else collected
    joinSpace collected2

/-! ### The regex `(?i)(.+?)\s+(?:vs\.?|versus|contro)\s+(.+)` of
`_extract_players_from_text` (actions.py line 2109), embedded as a
backtracking matcher with Python `re` semantics: leftmost start, lazy first
group, greedy whitespace and alternation tried left to right, `.` not
matching a newline. -/

/-- Python `\s` (ASCII part; the inputs at issue contain no exotic spaces). -/
def isWS (c : Char) : Bool := c.isWhitespace

/-- case-insensitive literal match at the head of a char list. -/
def lowerEqTok (cs : List Char) (pat : List Char) : Bool :=
  (cs.take pat.length).map lowerChar == pat

/-- match `\s+(.+)` against `cs` backtracking the greedy `\s+` down from `k`
whitespace characters: the group is the maximal non-newline run after the
consumed whitespace. -/
def matchTailGo (cs : List Char) : Nat → Option (List Char)
  | 0 => Option.none
  | Nat.succ k =>
    match cs.drop (Nat.succ k) with
    | [] => matchTailGo cs k
    | c :: rest =>
      if c == nlChar then matchTailGo cs k
      else Option.some (c :: rest.takeWhile (fun d => d != nlChar))

/-- match `\s+(.+)`, starting from the maximal whitespace run. -/
def matchTail (cs : List Char) : Option (List Char) :=
  matchTailGo cs (cs.takeWhile isWS).length

/-- match `\s+(?:vs\.?|versus|contro)\s+(.+)` against `cs`; the connector
begins with a non-whitespace character, so the first `\s+` necessarily
consumes the whole leading whitespace run. -/
def matchSep (cs : List Char) : Option (List Char) :=
  let w := (cs.takeWhile isWS).length
  if w == 0 then Option.none else
  let rest := cs.drop w
  (if lowerEqTok rest ['v', 's', '.'] then matchTail (rest.drop 3) else Option.none) <|>
  (if lowerEqTok rest ['v', 's'] then matchTail (rest.drop 2) else Option.none) <|>
  (if lowerEqTok rest ['v', 'e', 'r', 's', 'u', 's'] then matchTail (rest.drop 6) else Option.none) <|>
  (if lowerEqTok rest ['c', 'o', 'n', 't', 'r', 'o'] then matchTail (rest.drop 6) else Option.none)

/-- lazy `(.+?)` at a fixed start: extend the first group one character at a
time (never across a newline) until the separator matches. -/
def tryStartGo (acc : List Char) : List Char → Option (String × String)
  | [] => Option.none
  | c :: rest =>
    if c == nlChar then Option.none
    else
      let acc2 := c :: acc
      match matchSep rest with
      | Option.some g2 => Option.some (String.mk acc2.reverse, String.mk g2)
      | Option.none => tryStartGo acc2 rest

/-- leftmost search: try every start position in order. -/
def searchPairGo : List Char → Option (String × String)
  | [] => Option.none
  | c :: rest =>
    match tryStartGo [] (c :: rest) with
    | Option.some r => Option.some r
    | Option.none => searchPairGo rest

/-- `re.search(r"(?i)(.+?)\s+(?:vs\.?|versus|contro)\s+(.+)", text)` returning
the two capture groups. -/
def re_search_pair (text : String) : Option (String × String) :=
  searchPairGo text.toList

/-- `ActionMatchResult._extract_players_from_text` (actions.py lines
2105-2119). -/
def ActionMatchResult_extract_players_from_text (text : String) : List String :=
  if text == "" then [] else
  match re_search_pair text with
  | Option.none => []
  | Option.some (l, r) =>
    let left := ActionMatchResult_clean_player_fragment l true
    let right := ActionMatchResult_clean_player_fragment r false
    let step := fun (res : List String) (candidate : String) =>
      let cleaned := stripCharsBoth [' ', ',', '.', '-'] candidate
      if cleaned != "" && res.all (fun e => strLower cleaned != strLower e)
      then res ++ [cleaned] else res
    step (step [] left) right

/-! ## Year and surface normalization (actions.py lines 51-65, 219-271) -/

/-- scan for the first occurrence of the pattern `(19|20)\d{2}` with no word
boundaries (`re.search` in `normalize_year_value`, actions.py line 270). -/
def yearNB : List Char → Option String
  | [] => Option.none
  | c1 :: rest =>
    match rest with
    | c2 :: c3 :: c4 :: _ =>
      if ((c1 == '1' && c2 == '9') || (c1 == '2' && c2 == '0')) &&
          c3.isDigit && c4.isDigit
      then Option.some (String.mk [c1, c2, c3, c4])
      else yearNB rest
    | _ => Option.none

/-- `normalize_year_value` (actions.py lines 265-271): falsy input gives
`None`, else the first `(19|20)\d{2}` occurrence. -/
def normalize_year_value (value : Option String) : Option String :=
  match value with
  | Option.none => Option.none
  | Option.some s => if s == "" then Option.none else yearNB s.toList

/-- Python `\w` restricted to the Latin-1 letters the repository data uses:
ASCII alphanumerics, underscore, accented-Latin letters. -/
def isWordChar (c : Char) : Bool :=
  c.isAlphanum || c == '_' || inRange 192 214 c.toNat ||
    inRange 216 246 c.toNat || inRange 248 255 c.toNat

/-- scan for the first occurrence of `\b(19|20)\d{2}\b` carrying the previous
character for the left word boundary (`re.search` in `extract_year_from_text`,
actions.py line 223). -/
def yearB (prev : Option Char) : List Char → Option String
  | [] => Option.none
  | c1 :: rest =>
    match rest with
    | c2 :: c3 :: c4 :: rest4 =>
      let okBefore := match prev with
        | Option.none => true
        | Option.some p => !isWordChar p
      let okAfter := match rest4 with
        | [] => true
        | n :: _ => !isWordChar n
      if okBefore && ((c1 == '1' && c2 == '9') || (c1 == '2' && c2 == '0')) &&
          c3.isDigit && c4.isDigit && okAfter
      then Option.some (String.mk [c1, c2, c3, c4])
      else yearB (Option.some c1) rest
    | _ => Option.none

/-- `extract_year_from_text` (actions.py lines 219-224). -/
def extract_year_from_text (text : String) : Option String :=
  if text == "" then Option.none else yearB Option.none text.toList

/-- `SURFACE_KEYWORDS` (actions.py lines 51-62), in Python dict insertion
order (which the `for key, value in ...items()` scan follows). -/
def SURFACE_KEYWORDS : List (String × String) :=
  [("terra battuta", "Clay"), ("terra", "Clay"), ("clay", "Clay"),
   ("erba", "Grass"), ("grass", "Grass"), ("cemento", "Hard"),
   ("cement", "Hard"), ("hard", "Hard"), ("moquette", "Carpet"),
   ("carpet", "Carpet")]

/-- `VALID_SURFACE_CODES` = keys of `SURFACE_LABELS` (actions.py lines
42-47, 65). -/
def VALID_SURFACE_CODES : List String := ["Hard", "Grass", "Clay", "Carpet"]

/-- Python `sub in hay` on char lists. -/
def containsSub (sub : List Char) : List Char → Bool
  | [] => sub.isPrefixOf []
  | c :: t => sub.isPrefixOf (c :: t) || containsSub sub t

/-- Python `sub in s` for strings. -/
def strContains (s sub : String) : Bool := containsSub sub.toList s.toList

/-- `extract_surface_from_text` (actions.py lines 247-255): first keyword of
`SURFACE_KEYWORDS` contained in the lowered text. -/
def extract_surface_from_text (text : String) : Option String :=
  if text == "" then Option.none else
  let s := strLower text
  (SURFACE_KEYWORDS.find? (fun kv => strContains s kv.1)).map (fun kv => kv.2)

/-- `normalize_surface_value` (actions.py lines 258-262): exact dictionary
lookup of the lowered value, falling back to the substring scan. -/
def normalize_surface_value (value : Option String) : Option String :=
  match value with
  | Option.none => Option.none
  | Option.some v =>
    if v == "" then Option.none
    else
      match SURFACE_KEYWORDS.find? (fun kv => kv.1 == strLower v) with
      | Option.some kv => Option.some kv.2
      | Option.none => extract_surface_from_text v

/-! ## Filter context builder (actions.py lines 274-393) -/

/-- a structured entity of the latest message (`e.get("entity")`,
`e.get("value")`). -/
structure RasaEntity where
  entity : Option String
  value : Option String
deriving DecidableEq

/-- `message_year` of `build_filter_context` (actions.py line 351). -/
def messageYear (entities : List RasaEntity) (text : String) : Option String :=
  match (entities.filter (fun e => e.entity == Option.some ("year"))).map (fun e => e.value) with
  | v :: _ => normalize_year_value v
  | [] => extract_year_from_text text

/-- `message_surface` of `build_filter_context` (actions.py lines 352-354). -/
def messageSurface (entities : List RasaEntity) (text : String) : Option String :=
  match (entities.filter (fun e => e.entity == Option.some ("surface"))).map (fun e => e.value) with
  | v :: _ => normalize_surface_value v
  | [] => extract_surface_from_text text

/-- `message_tournament` of `build_filter_context` (actions.py line 355). -/
def messageTournament (entities : List RasaEntity) : Option String :=
  match (entities.filter (fun e => e.entity == Option.some ("tournament"))).map (fun e => e.value) with
  | v :: _ => v
  | [] => Option.none

/-- the `FilterContext` dataclass (actions.py lines 274-291). -/
structure FilterContextL where
  intent_name : String
  text : String
  entities : List RasaEntity
  year : Option String
  surface : Option String
  tournament : Option String
  message_year : Option String
  message_surface : Option String
  message_tournament : Option String
  slot_year : Option String
  slot_surface : Option String
  slot_tournament : Option String
  explicit_year : Bool
  explicit_surface : Bool
  explicit_tournament : Bool
deriving DecidableEq

/-- Python `a or b` on optional strings (`""` is falsy). -/
def pyOrOpt (a b : Option String) : Option String :=
  match a with
  | Option.some s => if s == "" then b else Option.some s
  | Option.none => b

/-- `build_filter_context` (actions.py lines 339-393).  The tracker is passed
as its observable parts: intent name, message text, entity list and the three
remembered slots. -/
def build_filter_context (intent_name text : String) (entities : List RasaEntity)
    (slot_year slot_surface slot_tournament : Option String) : FilterContextL :=
  let message_year := messageYear entities text
  let message_surface := messageSurface entities text
  let message_tournament := messageTournament entities
  if intent_name == "inform_filters" then
    { intent_name := intent_name
      text := text
      entities := entities
      year := pyOrOpt message_year slot_year
      surface := pyOrOpt message_surface slot_surface
      tournament := pyOrOpt message_tournament slot_tournament
      message_year := message_year
      message_surface := message_surface
      message_tournament := message_tournament
      slot_year := slot_year
      slot_surface := slot_surface
      slot_tournament := slot_tournament
      explicit_year := message_year.isSome
      explicit_surface := message_surface.isSome
      explicit_tournament := message_tournament.isSome }
  else
    { intent_name := intent_name
      text := text
      entities := entities
      year := message_year
      surface := message_surface
      tournament := message_tournament
      message_year := message_year
      message_surface := message_surface
      message_tournament := message_tournament
      slot_year := slot_year
      slot_surface := slot_surface
      slot_tournament := slot_tournament
      explicit_year := message_year.isSome
      explicit_surface := message_surface.isSome
      explicit_tournament := message_tournament.isSome }

/-! ## Fuzzy player resolution (actions.py lines 711-759) -/

/-- a row of the `players` table restricted to the columns
`validate_and_find_player` touches. -/
structure Player where
  id : String
  player_name : String
deriving DecidableEq

/-- the data store as the two relations the resolver queries. -/
structure DB where
  players : List Player
  matchRows : List MatchRow
deriving DecidableEq

/-- SQLite `LOWER` (ASCII-only lowering). -/
def sqliteLower (s : String) : String := strLower s

/-- the SQL join condition `p.id = m.winner_id OR p.id = m.loser_id`. -/
def participantHere (pid : String) (m : MatchRow) : Bool :=
  m.winner_id == Option.some pid || m.loser_id == Option.some pid

/-- SQL `MAX` over TEXT values, ignoring NULLs. -/
def maxDate (dates : List (Option String)) : Option String :=
  dates.foldl
    (fun acc d =>
      match acc, d with
      | Option.none, x => x
      | x, Option.none => x
      | Option.some a, Option.some b => if a ≤ b then Option.some b else Option.some a)
    Option.none

/-- `MAX(m.tourney_date)` for a player (actions.py lines 729-731, 745-747). -/
def last_match_date (db : DB) (pid : String) : Option String :=
  maxDate ((db.matchRows.filter (participantHere pid)).map (fun m => m.tourney_date))

/-- `COUNT(m.match_id)` for a player (non-NULL match ids, actions.py
line 745). -/
def match_count (db : DB) (pid : String) : Nat :=
  ((db.matchRows.filter (participantHere pid)).filter (fun m => m.match_id.isSome)).length

/-- strict comparison for `ORDER BY (last_match IS NULL) ASC, last_match
DESC`: non-NULL beats NULL, then later date wins. -/
def dateKeyBetter : Option String → Option String → Bool
  | Option.some a, Option.some b => decide (b < a)
  | Option.some _, Option.none => true
  | _, _ => false

/-- `LIMIT 1` under the ordering of the prefix tier (actions.py line 734): fold
keeping the best row, earlier rows win ties. -/
def pickPrefixBest (db : DB) (cands : List Player) : Option Player :=
  cands.foldl
    (fun best p =>
      match best with
      | Option.none => Option.some p
      | Option.some q =>
        if dateKeyBetter (last_match_date db p.id) (last_match_date db q.id)
        then Option.some p else Option.some q)
    Option.none

/-- `LIMIT 1` under the ordering of the substring tier (actions.py line 750):
date key first, then match count descending. -/
def pickSubstrBest (db : DB) (cands : List Player) : Option Player :=
  cands.foldl
    (fun best p =>
      match best with
      | Option.none => Option.some p
      | Option.some q =>
        let dp := last_match_date db p.id
        let dq := last_match_date db q.id
        if dateKeyBetter dp dq ||
            (dp == dq && decide (match_count db q.id < match_count db p.id))
        then Option.some p else Option.some q)
    Option.none

/-- `validate_and_find_player` (actions.py lines 711-759).  The result also
carries the number of queries issued to the data source (one per
`cursor.execute`). -/
def validate_and_find_player (player_name : Option String) (db : DB) :
    (Option String × Option String) × Nat :=
  match player_name with
  | Option.none => ((Option.none, Option.none), 0)
  | Option.some s =>
    if s == "" || (strTrim s).length < 2 then ((Option.none, Option.none), 0)
    else
      let clean := strTrim s
      match db.players.find? (fun p => sqliteLower p.player_name == sqliteLower clean) with
      | Option.some p => ((Option.some p.id, Option.some p.player_name), 1)
      | Option.none =>
        let prefixCands := db.players.filter
          (fun p => (sqliteLower clean).toList.isPrefixOf (sqliteLower p.player_name).toList)
        match pickPrefixBest db prefixCands with
        | Option.some p => ((Option.some p.id, Option.some p.player_name), 2)
        | Option.none =>
          let substrCands := db.players.filter
            (fun p => strContains (sqliteLower p.player_name) (sqliteLower clean))
          match pickSubstrBest db substrCands with
          | Option.some p => ((Option.some p.id, Option.some p.player_name), 3)
          | Option.none => ((Option.none, Option.none), 3)

/-! ## Statistics aggregation (actions.py lines 1177-1272) -/

/-- `safe_int` (actions.py lines 687-691) on an INTEGER cell. -/
def safe_int : Option Int → Int
  | Option.none => 0
  | Option.some n => n

/-- `str(row["winner_id"]) == player_id_str` (actions.py lines 1178, 1205). -/
def isWinnerRow (pid : String) (r : MatchRow) : Bool := pyStrOpt r.winner_id == pid

/-- `safe_int(match["w_X"] if is_winner else match["l_X"])` (actions.py lines
1230-1238). -/
def pickStat (w l : Option Int) (iw : Bool) : Int := safe_int (if iw then w else l)

/-- wins of the subject (actions.py line 1178). -/
def aggWins (rows : List MatchRow) (pid : String) : Nat :=
  (rows.filter (isWinnerRow pid)).length

/-- summed aces (actions.py lines 1230, 1240). -/
def aggAces (rows : List MatchRow) (pid : String) : Int :=
  (rows.map (fun r => pickStat r.w_ace r.l_ace (isWinnerRow pid r))).sum

/-- summed double faults (actions.py lines 1231, 1241). -/
def aggDfs (rows : List MatchRow) (pid : String) : Int :=
  (rows.map (fun r => pickStat r.w_df r.l_df (isWinnerRow pid r))).sum

/-- summed serve points (actions.py lines 1232, 1242). -/
def aggSvpt (rows : List MatchRow) (pid : String) : Int :=
  (rows.map (fun r => pickStat r.w_svpt r.l_svpt (isWinnerRow pid r))).sum

/-- summed first serves in (actions.py lines 1233, 1243). -/
def agg1stIn (rows : List MatchRow) (pid : String) : Int :=
  (rows.map (fun r => pickStat r.w_1stIn r.l_1stIn (isWinnerRow pid r))).sum

/-- summed first-serve points won (actions.py lines 1234, 1244). -/
def agg1stWon (rows : List MatchRow) (pid : String) : Int :=
  (rows.map (fun r => pickStat r.w_1stWon r.l_1stWon (isWinnerRow pid r))).sum

/-- summed second-serve points won (actions.py lines 1235, 1245). -/
def agg2ndWon (rows : List MatchRow) (pid : String) : Int :=
  (rows.map (fun r => pickStat r.w_2ndWon r.l_2ndWon (isWinnerRow pid r))).sum

/-- summed service games (actions.py lines 1236, 1246). -/
def aggSvGms (rows : List MatchRow) (pid : String) : Int :=
  (rows.map (fun r => pickStat r.w_SvGms r.l_SvGms (isWinnerRow pid r))).sum

/-- summed break points saved (actions.py lines 1237, 1247). -/
def aggBpSaved (rows : List MatchRow) (pid : String) : Int :=
  (rows.map (fun r => pickStat r.w_bpSaved r.l_bpSaved (isWinnerRow pid r))).sum

/-- summed break points faced (actions.py lines 1238, 1248). -/
def aggBpFaced (rows : List MatchRow) (pid : String) : Int :=
  (rows.map (fun r => pickStat r.w_bpFaced r.l_bpFaced (isWinnerRow pid r))).sum

/-- the aggregate values computed by `ActionPlayerStats.run`; ratios are
modelled as exact rationals (the claims under verification only compare them
with zero, where Python float and exact arithmetic agree). -/
structure AggStats where
  total : Nat
  wins : Nat
  losses : Nat
  win_rate : ℚ
  sum_aces : Int
  sum_dfs : Int
  sum_svpt : Int
  sum_1st_in : Int
  sum_1st_won : Int
  sum_2nd_won : Int
  sum_svgms : Int
  sum_bp_saved : Int
  sum_bp_faced : Int
  first_in_pct : ℚ
  first_won_pct : ℚ
  second_won_pct : ℚ
  bp_saved_pct : ℚ
deriving DecidableEq

/-- the statistics block of `ActionPlayerStats.run` (actions.py lines
1159-1272): counts, win rate (line 1180), summed serve counters and the four
derived percentages with their zero-denominator guards (lines 1269-1272). -/
def ActionPlayerStats_aggregate (rows : List MatchRow) (pid : String) : AggStats :=
  { total := rows.length
    wins := aggWins rows pid
    losses := rows.length - aggWins rows pid
    win_rate :=
      if rows.length ≠ 0 then (aggWins rows pid : ℚ) / (rows.length : ℚ) * 100 else 0
    sum_aces := aggAces rows pid
    sum_dfs := aggDfs rows pid
    sum_svpt := aggSvpt rows pid
    sum_1st_in := agg1stIn rows pid
    sum_1st_won := agg1stWon rows pid
    sum_2nd_won := agg2ndWon rows pid
    sum_svgms := aggSvGms rows pid
    sum_bp_saved := aggBpSaved rows pid
    sum_bp_faced := aggBpFaced rows pid
    first_in_pct :=
      if aggSvpt rows pid ≠ 0
      then (agg1stIn rows pid : ℚ) / (aggSvpt rows pid : ℚ) * 100 else 0
    first_won_pct :=
      if agg1stIn rows pid ≠ 0
      then (agg1stWon rows pid : ℚ) / (agg1stIn rows pid : ℚ) * 100 else 0
    second_won_pct :=
      if aggSvpt rows pid - agg1stIn rows pid ≠ 0
      then (agg2ndWon rows pid : ℚ) / ((aggSvpt rows pid - agg1stIn rows pid : Int) : ℚ) * 100
      else 0
    bp_saved_pct :=
      if aggBpFaced rows pid ≠ 0
      then (aggBpSaved rows pid : ℚ) / (aggBpFaced rows pid : ℚ) * 100 else 0 }

/-- a match row with every cell NULL, used as a concrete test input. -/
def zeroRow : MatchRow :=
  { match_id := Option.none, tourney_name := Option.none, surface := Option.none,
    draw_size := Option.none, tourney_level := Option.none,
    tourney_date := Option.none, match_num := Option.none,
    winner_id := Option.none, loser_id := Option.none,
    winner_seed := Option.none, loser_seed := Option.none, score := Option.none,
    best_of := Option.none, round := Option.none, minutes := Option.none,
    w_ace := Option.none, w_df := Option.none, w_svpt := Option.none,
    w_1stIn := Option.none, w_1stWon := Option.none, w_2ndWon := Option.none,
    w_SvGms := Option.none, w_bpSaved := Option.none, w_bpFaced := Option.none,
    l_ace := Option.none, l_df := Option.none, l_svpt := Option.none,
    l_1stIn := Option.none, l_1stWon := Option.none, l_2ndWon := Option.none,
    l_SvGms := Option.none, l_bpSaved := Option.none, l_bpFaced := Option.none,
    ongoing := Option.none }

/-- a raw match tuple with every cell NULL, used as a concrete test input. -/
def nilRawRow : List PyVal := List.replicate 34 PyVal.none

/-! ## Theorems -/

/-- characters with equal code points are equal. -/
theorem char_toNat_inj {a b : Char} (h : a.toNat = b.toNat) : a = b := by
  rw [← Char.ofNat_toNat a, ← Char.ofNat_toNat b, h]

/-- the code-point comparison is total. -/
theorem charListLe_total (a : List Char) :
    ∀ b : List Char, charListLe a b = true ∨ charListLe b a = true := by
  induction a with
  | nil => intro b; left; rfl
  | cons x as ih =>
    intro b
    cases b with
    | nil => right; rfl
    | cons y bs =>
      by_cases he : x.toNat = y.toNat
      · rcases ih bs with h | h
        · left; simp [charListLe, he, h]
        · right; simp [charListLe, he.symm, h]
      · by_cases hlt : x.toNat < y.toNat
        · left; simp [charListLe, he, hlt]
        · right
          have hne : y.toNat ≠ x.toNat := fun hy => he hy.symm
          have : y.toNat < x.toNat := by omega
          simp [charListLe, hne, this]

/-- the code-point comparison is antisymmetric. -/
theorem charListLe_antisymm (a : List Char) :
    ∀ b : List Char, charListLe a b = true → charListLe b a = true → a = b := by
  induction a with
  | nil =>
    intro b h1 h2
    cases b with
    | nil => rfl
    | cons y bs => simp [charListLe] at h2
  | cons x as ih =>
    intro b h1 h2
    cases b with
    | nil => simp [charListLe] at h1
    | cons y bs =>
      by_cases he : x.toNat = y.toNat
      · have hx : x = y := char_toNat_inj he
        subst hx
        simp only [charListLe, if_pos rfl] at h1 h2
        rw [ih bs h1 h2]
      · exfalso
        have hne : y.toNat ≠ x.toNat := fun hy => he hy.symm
        simp only [charListLe, if_neg he, decide_eq_true_eq] at h1
        simp only [charListLe, if_neg hne, decide_eq_true_eq] at h2
        omega

/-- Python `sorted` of a two-element tuple does not depend on the order of its
arguments. -/
theorem sortPair_comm (a b : String) : sortPair a b = sortPair b a := by
  unfold sortPair
  by_cases h1 : strLe a b
  · by_cases h2 : strLe b a
    · have hd : a.toList = b.toList :=
        charListLe_antisymm a.toList b.toList h1 h2
      have hab : a = b := by
        cases a; cases b
        simp only [String.toList] at hd
        exact congrArg String.mk hd
      subst hab; rfl
    · simp [h1, h2]
  · have h2 : strLe b a := by
      rcases charListLe_total a.toList b.toList with h | h
      · exact absurd h h1
      · exact h
    simp [h1, h2]

/-- C1: signature symmetry — for every match record, swapping `winner_id` and
`loser_id` while holding every other field equal leaves
`make_match_signature` unchanged. -/
theorem make_match_signature_swap_invariant (row : MatchRow) :
    make_match_signature
        { row with winner_id := row.loser_id, loser_id := row.winner_id } =
      make_match_signature row := by
  simp only [make_match_signature]
  rw [sortPair_comm]

/-- C2: dual-path signature equivalence — for every full match row, the
signature computed from the row as a named-field record and the signature
computed from the same row as a positional tuple in the column order of the
`matches` table coincide. -/
theorem make_match_signature_dual_path (row : MatchRow) :
    make_match_signature_raw row.toRaw = make_match_signature row := by
  obtain ⟨f1, f2, f3, f4, f5, f6, f7, f8, f9, f10, f11, f12, f13, f14, f15,
    f16, f17, f18, f19, f20, f21, f22, f23, f24, f25, f26, f27, f28, f29,
    f30, f31, f32, f33, f34⟩ := row
  cases f2 <;> cases f6 <;> cases f7 <;> cases f8 <;> cases f9 <;>
    cases f12 <;> cases f14 <;> rfl

section DedupLemmas

variable {α : Type} (key : α → Signature)

/-- the dedup loop yields a sublist (hence a subsequence) of its input. -/
theorem dedupByKey_sublist (rows : List α) :
    ∀ seen, (dedupByKey key seen rows).Sublist rows := by
  induction rows with
  | nil => intro seen; simp [dedupByKey]
  | cons r rest ih =>
    intro seen
    by_cases h : key r ∈ seen
    · simpa [dedupByKey, h] using (ih seen).cons r
    · simpa [dedupByKey, h] using (ih (key r :: seen)).cons₂ r

/-- the dedup loop emits pairwise-distinct keys, none of them in `seen`. -/
theorem dedupByKey_nodup (rows : List α) :
    ∀ seen, ((dedupByKey key seen rows).map key).Nodup ∧
      ∀ r ∈ dedupByKey key seen rows, key r ∉ seen := by
  induction rows with
  | nil => intro seen; simp [dedupByKey]
  | cons r rest ih =>
    intro seen
    by_cases h : key r ∈ seen
    · simpa [dedupByKey, h] using ih seen
    · have ih2 := ih (key r :: seen)
      rw [show dedupByKey key seen (r :: rest) =
            r :: dedupByKey key (key r :: seen) rest by simp [dedupByKey, h]]
      constructor
      · rw [List.map_cons]
        refine List.nodup_cons.mpr ⟨?_, ih2.1⟩
        intro hmem
        obtain ⟨r', hr', hek⟩ := List.mem_map.mp hmem
        exact (ih2.2 r' hr') (hek ▸ List.mem_cons_self (key r) seen)
      · intro r' hr'
        rcases List.mem_cons.mp hr' with hq | hq
        · subst hq; exact h
        · exact fun hs => (ih2.2 r' hq) (List.mem_cons_of_mem _ hs)

/-- the dedup loop is the identity on a list whose keys are pairwise distinct
and disjoint from `seen`. -/
theorem dedupByKey_id (l : List α) :
    ∀ seen, (∀ r ∈ l, key r ∉ seen) → (l.map key).Nodup →
      dedupByKey key seen l = l := by
  induction l with
  | nil => intro seen _ _; rfl
  | cons r rest ih =>
    intro seen hout hnd
    have h : key r ∉ seen := hout r (List.mem_cons_self r rest)
    rw [show dedupByKey key seen (r :: rest) =
          r :: dedupByKey key (key r :: seen) rest by simp [dedupByKey, h]]
    have hnd2 : (key r ∉ rest.map key) ∧ (rest.map key).Nodup := by
      rw [List.map_cons] at hnd; exact List.nodup_cons.mp hnd
    congr 1
    apply ih
    · intro r' hr' hs
      rcases List.mem_cons.mp hs with h1 | h2
      · exact hnd2.1 (h1 ▸ List.mem_map_of_mem key hr')
      · exact hout r' (List.mem_cons_of_mem _ hr') h2
    · exact hnd2.2

/-- filtering the dedup output on one key value yields the first input
occurrence of that key (or nothing, if the key was already seen). -/
theorem dedupByKey_filter (sig : Signature) (l : List α) :
    ∀ seen, (dedupByKey key seen l).filter (fun r => key r == sig) =
      if sig ∈ seen then [] else (l.filter (fun r => key r == sig)).take 1 := by
  induction l with
  | nil => intro seen; simp [dedupByKey]
  | cons r rest ih =>
    intro seen
    by_cases hm : key r ∈ seen
    · rw [show dedupByKey key seen (r :: rest) = dedupByKey key seen rest by
        simp [dedupByKey, hm]]
      rw [ih seen]
      by_cases hs : sig ∈ seen
      · simp [hs]
      · have hne : (key r == sig) = false := by
          refine beq_eq_false_iff_ne.mpr ?_
          intro he; exact hs (he ▸ hm)
        simp [hs, List.filter_cons, hne]
    · rw [show dedupByKey key seen (r :: rest) =
            r :: dedupByKey key (key r :: seen) rest by simp [dedupByKey, hm]]
      by_cases he : key r = sig
      · have hs : sig ∉ seen := he ▸ hm
        rw [List.filter_cons_of_pos (by simp [he]), ih (key r :: seen),
          if_pos (by exact he ▸ List.mem_cons_self (key r) seen), if_neg hs,
          List.filter_cons_of_pos (by simp [he])]
        simp
      · rw [List.filter_cons_of_neg (by simp [he]), ih (key r :: seen)]
        have hiff : (sig ∈ key r :: seen) ↔ (sig ∈ seen) := by
          constructor
          · intro hmem
            rcases List.mem_cons.mp hmem with h1 | h2
            · exact absurd h1.symm he
            · exact h2
          · exact fun h2 => List.mem_cons_of_mem _ h2
        by_cases hs : sig ∈ seen
        · rw [if_pos (hiff.mpr hs), if_pos hs]
        · rw [if_neg (fun hmem => hs (hiff.mp hmem)), if_neg hs,
            List.filter_cons_of_neg (by simp [he])]

end DedupLemmas

/-- C3: dedup idempotence and stability — `dedupe(dedupe(rows)) ==
dedupe(rows)`; the output is a subsequence of the input; and for every
signature the output contains exactly the first input row with that
signature, with its field values unchanged. -/
theorem deduplicate_matches_idempotent_stable (rows : List MatchRow) :
    deduplicate_matches (deduplicate_matches rows) = deduplicate_matches rows
    ∧ (deduplicate_matches rows).Sublist rows
    ∧ ∀ sig : Signature,
        (deduplicate_matches rows).filter (fun r => make_match_signature r == sig) =
          (rows.filter (fun r => make_match_signature r == sig)).take 1 := by
  refine ⟨?_, ?_, ?_⟩
  · have hnd := dedupByKey_nodup make_match_signature rows []
    exact dedupByKey_id make_match_signature _ []
      (fun r _ hs => (List.not_mem_nil _) hs) hnd.1
  · exact dedupByKey_sublist make_match_signature rows []
  · intro sig
    have h := dedupByKey_filter make_match_signature sig rows []
    simpa using h

/-- C4 counterexample: presenting the fetched rows of
`ActionMatchResult._handle_single` (and of `_handle_tournament` and
`_handle_latest`) does not deduplicate — a result set holding the same raw
row twice reaches the presentation loop with two rows of equal signature. -/
theorem handle_single_rows_duplicate_cex :
    ¬ ((ActionMatchResult_handle_single_rows [nilRawRow, nilRawRow]).map
        make_match_signature_raw).Nodup
    ∧ ¬ ((ActionMatchResult_handle_tournament_rows [nilRawRow, nilRawRow]).map
        make_match_signature_raw).Nodup
    ∧ ¬ ((ActionMatchResult_handle_latest_rows [nilRawRow, nilRawRow]).map
        make_match_signature_raw).Nodup := by
  refine ⟨?_, ?_, ?_⟩ <;> decide

/-- C4 amended: deduplication is applied before aggregation or presentation in
the player-stats path, the head-to-head path and the pair handler (their row
lists carry pairwise-distinct signatures), but the single-player, tournament
and latest handlers of `ActionMatchResult` present the fetched rows
unchanged. -/
theorem dedup_applied_per_operation (rowsD : List MatchRow)
    (rowsR : List (List PyVal)) :
    ((ActionPlayerStats_match_rows rowsD).map make_match_signature).Nodup
    ∧ ((ActionHeadToHead_match_rows rowsR).map make_match_signature_raw).Nodup
    ∧ ((fetch_unique_match_rows rowsD).map
        (fun r => make_match_signature_raw r.toRaw)).Nodup
    ∧ ActionMatchResult_handle_single_rows rowsR = rowsR
    ∧ ActionMatchResult_handle_tournament_rows rowsR = rowsR
    ∧ ActionMatchResult_handle_latest_rows rowsR = rowsR := by
  refine ⟨?_, ?_, ?_, rfl, rfl, rfl⟩
  · exact (dedupByKey_nodup make_match_signature rowsD []).1
  · exact (dedupByKey_nodup make_match_signature_raw rowsR []).1
  · exact (dedupByKey_nodup (fun r => make_match_signature_raw r.toRaw) rowsD []).1

/-- the token loop after the first kept token: a pure connector/digit
filter. -/
theorem tokLoopGo_true (l : List String) :
    tokLoopGo true l = l.filter (fun t => !isConnectorTok t && !pyIsDigit t) := by
  induction l with
  | nil => rfl
  | cons t rest ih =>
    by_cases h1 : isConnectorTok t
    · simp [tokLoopGo, h1, ih, List.filter_cons]
    · by_cases h2 : pyIsDigit t
      · simp [tokLoopGo, h1, h2, ih, List.filter_cons]
      · simp [tokLoopGo, h1, h2, ih, List.filter_cons]

/-- the token loop before the first kept token: the connector/digit filter
followed by dropping the whole leading run of filler tokens. -/
theorem tokLoopGo_false (l : List String) :
    tokLoopGo false l =
      (l.filter (fun t => !isConnectorTok t && !pyIsDigit t)).dropWhile
        isPrefixFillerTok := by
  induction l with
  | nil => rfl
  | cons t rest ih =>
    by_cases h1 : isConnectorTok t
    · simp [tokLoopGo, h1, ih, List.filter_cons]
    · by_cases h2 : pyIsDigit t
      · simp [tokLoopGo, h1, h2, ih, List.filter_cons]
      · by_cases h3 : isPrefixFillerTok t
        · simp [tokLoopGo, h1, h2, h3, ih, List.filter_cons, List.dropWhile_cons]
        · simp [tokLoopGo, h1, h2, h3, List.filter_cons, List.dropWhile_cons,
            tokLoopGo_true]

/-- C7 counterexample: on `"il la Sinner"` the tokenizer drops both leading
filler tokens — the second consecutive leading filler (`"la"`) is *not* kept
in the output, contradicting the at-most-one-leading-filler reading. -/
theorem tokenize_second_filler_cex :
    ActionMatchResult_tokenize ("il la Sinner") = [("Sinner")]
    ∧ ActionMatchResult_tokenize ("il la Sinner") ≠ [("la"), ("Sinner")]
    ∧ isPrefixFillerTok ("il") = true
    ∧ isPrefixFillerTok ("la") = true := by
  refine ⟨by decide, by decide, by decide, by decide⟩

/-- C7 amended: tokenization strips non-kept characters to spaces, splits on
whitespace, drops connector words and pure-numeric tokens everywhere, and
then drops the *entire leading run* of filler tokens (every filler
encountered before the first kept token), not just a single one. -/
theorem tokenize_drops_leading_filler_run (text : String) :
    ActionMatchResult_tokenize text =
      ((splitTokens (cleanText text)).filter
        (fun t => !isConnectorTok t && !pyIsDigit t)).dropWhile
        isPrefixFillerTok := by
  unfold ActionMatchResult_tokenize
  exact tokLoopGo_false _

/-- C9: extractor example — the player pair extracted from
`"Rinderknech vs Zverev a Shanghai 2025"` is exactly
`["Rinderknech", "Zverev"]`, and no trailing filter word leaks into either
name. -/
theorem extract_players_example :
    ActionMatchResult_extract_players_from_text
        ("Rinderknech vs Zverev a Shanghai 2025") =
      [("Rinderknech"), ("Zverev")]
    ∧ strContains ("Rinderknech") ("Shanghai") = false
    ∧ strContains ("Zverev") ("Shanghai") = false
    ∧ strContains ("Rinderknech") ("2025") = false
    ∧ strContains ("Zverev") ("2025") = false
    ∧ strContains ("Rinderknech") ("a Shanghai 2025") = false
    ∧ strContains ("Zverev") ("a Shanghai 2025") = false := by
  refine ⟨by decide, by decide, by decide, by decide, by decide, by decide,
    by decide⟩

/-- C5: explicit-vs-remembered merge — when the message carries no year and
slot memory holds year `"2022"`, the informing-filters intent yields effective
year `"2022"` with `explicit_year = false`, while any other intent yields
effective year `None` with `explicit_year = false` (slot memory ignored). -/
theorem filter_merge_explicit_vs_remembered (intent text : String)
    (ents : List RasaEntity) (sy ss st : Option String)
    (hmsg : messageYear ents text = Option.none)
    (hslot : sy = Option.some ("2022")) :
    (intent = "inform_filters" →
      (build_filter_context intent text ents sy ss st).year = Option.some ("2022")
      ∧ (build_filter_context intent text ents sy ss st).explicit_year = false)
    ∧ (intent ≠ "inform_filters" →
      (build_filter_context intent text ents sy ss st).year = Option.none
      ∧ (build_filter_context intent text ents sy ss st).explicit_year = false) := by
  subst hslot
  constructor
  · intro hi
    subst hi
    simp [build_filter_context, hmsg, pyOrOpt]
  · intro hi
    have hb : (intent == "inform_filters") = false := beq_eq_false_iff_ne.mpr hi
    simp [build_filter_context, hb, hmsg]

/-- witness for C5 at a concrete message and slot store. -/
theorem filter_merge_explicit_vs_remembered_witness :
    messageYear [] ("") = Option.none
    ∧ ((build_filter_context ("inform_filters") ("") []
          (Option.some ("2022")) Option.none Option.none).year = Option.some ("2022")
       ∧ (build_filter_context ("inform_filters") ("") []
          (Option.some ("2022")) Option.none Option.none).explicit_year = false)
    ∧ ((build_filter_context ("player_stats") ("") []
          (Option.some ("2022")) Option.none Option.none).year = Option.none
       ∧ (build_filter_context ("player_stats") ("") []
          (Option.some ("2022")) Option.none Option.none).explicit_year = false) := by
  refine ⟨rfl, ?_, ?_⟩
  · exact (filter_merge_explicit_vs_remembered ("inform_filters") ("") []
      (Option.some ("2022")) Option.none Option.none rfl rfl).1 rfl
  · exact (filter_merge_explicit_vs_remembered ("player_stats") ("") []
      (Option.some ("2022")) Option.none Option.none rfl rfl).2 (by decide)

/-- C6: short-query rejection — a query that is `None` or whose trimmed length
is below 2 characters makes player resolution return `(None, None)` after
issuing zero queries to the data source. -/
theorem short_query_rejected (name : Option String) (db : DB)
    (h : (strTrim (name.getD "")).length < 2) :
    validate_and_find_player name db = ((Option.none, Option.none), 0) := by
  cases name with
  | none => rfl
  | some s =>
    have h2 : (strTrim s).length < 2 := by simpa using h
    simp [validate_and_find_player, h2]

/-- witness for C6 at a concrete one-character query. -/
theorem short_query_rejected_witness :
    (strTrim ((Option.some ("a") : Option String).getD "")).length < 2
    ∧ validate_and_find_player (Option.some ("a"))
        { players := [], matchRows := [] } = ((Option.none, Option.none), 0) :=
  ⟨by decide, short_query_rejected (Option.some ("a"))
    { players := [], matchRows := [] } (by decide)⟩

/-- C8: percentage guards — aggregating an empty match list yields
`total = 0`, `win_rate = 0` and every derived percentage `0`; and each ratio
is `0` (no division performed) whenever its denominator — serve points, first
serves in, serve points minus first serves in, break points faced, or total
matches — is zero. -/
theorem aggregate_percentage_guards (rows : List MatchRow) (pid : String) :
    (ActionPlayerStats_aggregate [] pid).total = 0
    ∧ (ActionPlayerStats_aggregate [] pid).win_rate = 0
    ∧ (ActionPlayerStats_aggregate [] pid).first_in_pct = 0
    ∧ (ActionPlayerStats_aggregate [] pid).first_won_pct = 0
    ∧ (ActionPlayerStats_aggregate [] pid).second_won_pct = 0
    ∧ (ActionPlayerStats_aggregate [] pid).bp_saved_pct = 0
    ∧ ((ActionPlayerStats_aggregate rows pid).total = 0 →
        (ActionPlayerStats_aggregate rows pid).win_rate = 0)
    ∧ ((ActionPlayerStats_aggregate rows pid).sum_svpt = 0 →
        (ActionPlayerStats_aggregate rows pid).first_in_pct = 0)
    ∧ ((ActionPlayerStats_aggregate rows pid).sum_1st_in = 0 →
        (ActionPlayerStats_aggregate rows pid).first_won_pct = 0)
    ∧ ((ActionPlayerStats_aggregate rows pid).sum_svpt -
          (ActionPlayerStats_aggregate rows pid).sum_1st_in = 0 →
        (ActionPlayerStats_aggregate rows pid).second_won_pct = 0)
    ∧ ((ActionPlayerStats_aggregate rows pid).sum_bp_faced = 0 →
        (ActionPlayerStats_aggregate rows pid).bp_saved_pct = 0) := by
  refine ⟨rfl, rfl, rfl, rfl, rfl, rfl, ?_, ?_, ?_, ?_, ?_⟩
  · intro h
    simp only [ActionPlayerStats_aggregate] at h ⊢
    simp [h]
  · intro h
    simp only [ActionPlayerStats_aggregate] at h ⊢
    simp [h]
  · intro h
    simp only [ActionPlayerStats_aggregate] at h ⊢
    simp [h]
  · intro h
    simp only [ActionPlayerStats_aggregate] at h ⊢
    simp [h]
  · intro h
    simp only [ActionPlayerStats_aggregate] at h ⊢
    simp [h]

/-- witness for C8: a one-row list whose serve counters are all NULL has every
denominator zero, and the guards yield zero percentages. -/
theorem aggregate_percentage_guards_witness :
    (ActionPlayerStats_aggregate [zeroRow] ("1")).sum_svpt = 0
    ∧ (ActionPlayerStats_aggregate [zeroRow] ("1")).sum_bp_faced = 0
    ∧ (ActionPlayerStats_aggregate [zeroRow] ("1")).first_in_pct = 0
    ∧ (ActionPlayerStats_aggregate [zeroRow] ("1")).bp_saved_pct = 0 := by
  have h := aggregate_percentage_guards [zeroRow] ("1")
  refine ⟨by decide, by decide, ?_, ?_⟩
  · exact h.2.2.2.2.2.2.2.1 (by decide)
  · exact h.2.2.2.2.2.2.2.2.2.2 (by decide)

/-- every value of the surface keyword dictionary is a valid DB code. -/
theorem surface_keyword_values (kv : String × String)
    (h : kv ∈ SURFACE_KEYWORDS) : kv.2 ∈ VALID_SURFACE_CODES := by
  fin_cases h <;> decide

/-- the free-text surface scan yields only valid DB codes. -/
theorem extract_surface_closed (t c : String)
    (h : extract_surface_from_text t = Option.some c) :
    c ∈ VALID_SURFACE_CODES := by
  unfold extract_surface_from_text at h
  split at h
  · exact absurd h (by simp)
  · rw [Option.map_eq_some'] at h
    obtain ⟨kv, hfind, hc⟩ := h
    exact hc ▸ surface_keyword_values kv (List.mem_of_find?_eq_some hfind)

/-- surface normalization yields only valid DB codes. -/
theorem normalize_surface_closed (v : Option String) (c : String)
    (h : normalize_surface_value v = Option.some c) :
    c ∈ VALID_SURFACE_CODES := by
  cases v with
  | none => simp [normalize_surface_value] at h
  | some s =>
    simp only [normalize_surface_value] at h
    split at h
    · simp at h
    · split at h
      · rename_i kv hfind
        have hc : kv.2 = c := by injection h
        exact hc ▸ surface_keyword_values kv (List.mem_of_find?_eq_some hfind)
      · exact extract_surface_closed s c h

/-- the message-derived surface of a filter context is the surface scan of
the message. -/
theorem context_message_surface (intent text : String) (ents : List RasaEntity)
    (sy ss st : Option String) :
    (build_filter_context intent text ents sy ss st).message_surface =
      messageSurface ents text := by
  by_cases hb : intent == "inform_filters" <;> simp [build_filter_context, hb]

/-- the message-derived surface computation yields only valid DB codes. -/
theorem message_surface_closed (ents : List RasaEntity) (text : String)
    (c : String) (h : messageSurface ents text = Option.some c) :
    c ∈ VALID_SURFACE_CODES := by
  unfold messageSurface at h
  split at h
  · exact normalize_surface_closed _ c h
  · exact extract_surface_closed text c h

/-- C10: closed surface codomain — surface normalization
(`normalize_surface_value` and `extract_surface_from_text`) returns `None` or
one of the four DB surface codes, and hence the message-derived surface of a
filter context is always `None` or a valid code. -/
theorem surface_codomain_closed :
    (∀ v c, normalize_surface_value v = Option.some c → c ∈ VALID_SURFACE_CODES)
    ∧ (∀ t c, extract_surface_from_text t = Option.some c → c ∈ VALID_SURFACE_CODES)
    ∧ (∀ intent text ents sy ss st c,
        (build_filter_context intent text ents sy ss st).message_surface =
          Option.some c → c ∈ VALID_SURFACE_CODES) := by
  refine ⟨normalize_surface_closed, extract_surface_closed, ?_⟩
  intro intent text ents sy ss st c h
  rw [context_message_surface] at h
  exact message_surface_closed ents text c h

/-- witness for C10 at concrete inputs. -/
theorem surface_codomain_closed_witness :
    normalize_surface_value (Option.some ("terra")) = Option.some ("Clay")
    ∧ ("Clay") ∈ VALID_SURFACE_CODES
    ∧ extract_surface_from_text ("gioca su erba") = Option.some ("Grass")
    ∧ ("Grass") ∈ VALID_SURFACE_CODES := by
  refine ⟨by decide, ?_, by decide, ?_⟩
  · exact surface_codomain_closed.1 (Option.some ("terra")) ("Clay") (by decide)
  · exact surface_codomain_closed.2.1 ("gioca su erba") ("Grass") (by decide)

end TennisBot
